import Mathlib

/-!
Shallow embedding of the validation / confidence-scoring pipeline of the
Agentic Document Extraction repository.

Python floats are modelled as rationals (`ℚ`); all numeric literals in the
source (0.4, 0.01, ...) are exact decimal constants, so the arithmetic of
the scoring formulas is represented exactly.  Python dictionaries are
modelled as association lists with last-write-wins lookup, matching dict
comprehension semantics.  Exceptions are modelled with `Option`/`Except`:
a stage that may raise is a value of type `Except String α` at the stage
boundary, and internal `try/except` blocks become `match` on that value.
-/

namespace DocExtract

/-- One character of the `re.sub(r'[^\d.-]', '', s)` keep-set used by
`ValidationAgent._parse_amount`: digits, dot and minus survive. -/
def isAmountChar (c : Char) : Bool :=
  c.isDigit || c = '.' || c = '-'

/-- The strip step of `ValidationAgent._parse_amount`: remove every character
other than digits, `.` and `-` (`re.sub(r'[^\d.-]', '', amount_str)`). -/
def stripAmountChars (s : String) : String :=
  String.mk (s.data.filter isAmountChar)

/-- Numeric value of a digit string, most significant digit first. -/
def natOfDigits (cs : List Char) : Nat :=
  cs.foldl (fun a c => a * 10 + (c.toNat - '0'.toNat)) 0

/-- Python `float()` applied to a string known to contain only digits, `.`
and `-` (the only strings `_parse_amount` ever passes to `float`): an
optional leading minus sign, then digits with at most one dot and at least
one digit overall.  `none` models `float` raising `ValueError`. -/
def parseFloatCleaned (cs : List Char) : Option ℚ :=
  let signAndRest : ℚ × List Char :=
    match cs with
    | '-' :: r => (-1, r)
    | _ => (1, cs)
  let sign := signAndRest.1
  let rest := signAndRest.2
  if rest.any (fun c => c = '-') then none
  else
    let intPart := rest.takeWhile Char.isDigit
    let rest2 := rest.drop intPart.length
    match rest2 with
    | [] => if intPart = [] then none else some (sign * (natOfDigits intPart : ℚ))
    | '.' :: frac =>
        if frac.all Char.isDigit ∧ (intPart ≠ [] ∨ frac ≠ []) then
          some (sign * ((natOfDigits intPart : ℚ) +
            (natOfDigits frac : ℚ) / (10 : ℚ) ^ frac.length))
        else none
    | _ => none

/-- `ValidationAgent._parse_amount`: empty input parses to `0.0`; otherwise
strip every character other than digits, `.` and `-`; an empty cleaned
string parses to `0.0`, and otherwise `float(cleaned)` is applied (`none`
models the `ValueError` path). -/
def parseAmount (s : String) : Option ℚ :=
  if s = "" then some 0
  else
    let cleaned := stripAmountChars s
    if cleaned = "" then some 0
    else parseFloatCleaned cleaned.data

/-! ## String helpers used by the Python source -/

/-- Python `str.lower()` (ASCII case folding, which is all the source's
field names and OCR tokens use). -/
def lowerStr (s : String) : String :=
  String.mk (s.data.map Char.toLower)

/-- Cut a character list at every whitespace character. -/
def splitWsAux : List Char → List Char → List String
  | [], acc => [String.mk acc.reverse]
  | c :: cs, acc =>
    if c.isWhitespace then String.mk acc.reverse :: splitWsAux cs []
    else splitWsAux cs (c :: acc)

/-- Python `str.split()` with no argument: split on whitespace and drop
the empty pieces (equivalently: split on whitespace runs). -/
def splitWs (s : String) : List String :=
  (splitWsAux s.data []).filter (fun w => w ≠ "")

/-- Whether `pre` is an initial segment of `l` (character-level). -/
def listStartsWith : List Char → List Char → Bool
  | [], _ => true
  | _ :: _, [] => false
  | a :: as, b :: bs => a = b && listStartsWith as bs

/-- Whether `needle` occurs contiguously inside `hay`: Python's
`needle in hay` on strings, at the character-list level. -/
def containsSub : List Char → List Char → Bool
  | [], needle => needle.isEmpty
  | h :: t, needle => listStartsWith needle (h :: t) || containsSub t needle

/-- Python's substring test `needle in hay` on strings. -/
def strContainsSub (hay needle : String) : Bool :=
  containsSub hay.data needle.data

/-! ## Data model (`src/models/document_models.py`)

Fields that no code under specification reads (bounding boxes, field
sources, processing time, metadata) are omitted; `validation_passed` /
`validation_notes` are mutated by the Field Validator but never read back
by any specified computation, so they are likewise omitted from the
record. -/

/-- One OCR word box: entry of `ocr_data['word_boxes']` as produced by
`OCRProcessor.extract_text_with_boxes` (bounding box omitted). -/
structure WordBox where
  text : String
  confidence : ℚ
deriving DecidableEq, Repr

/-- The OCR result dictionary: `full_text`, `word_boxes` and
`average_confidence`.  The average is `Option`-valued because the
orchestrator reads it with `dict.get(..., 0.0)`. -/
structure OCRData where
  fullText : String
  wordBoxes : List WordBox
  averageConfidence : Option ℚ
deriving DecidableEq, Repr

/-- `ExtractedField` (name, value, confidence). -/
structure ExtractedField where
  name : String
  value : String
  confidence : ℚ
deriving DecidableEq, Repr

/-- `QualityAssurance` (passed rules, failed rules, notes, score). -/
structure QualityAssurance where
  passedRules : List String
  failedRules : List String
  notes : String
  crossValidationScore : ℚ
deriving DecidableEq, Repr

/-- `DocumentExtraction` (terminal pipeline output; processing time and
metadata omitted). -/
structure DocumentExtraction where
  docType : String
  fields : List ExtractedField
  overallConfidence : ℚ
  qa : QualityAssurance
deriving DecidableEq, Repr

/-- One value of the LLM response's `fields` mapping as consumed by
`ExtractionAgent.extract_structured_data`: the `value` entry (Python
`None` and `""` are both falsy, modelled as `""`) and the optional
`extraction_confidence` entry. -/
structure RawFieldData where
  value : String
  extractionConfidence : Option ℚ
deriving DecidableEq, Repr

/-- Return dictionary of `ValidationAgent._validate_field`. -/
structure FieldValidation where
  passed : Bool
  rulesPassed : List String
  rulesFailed : List String
  notes : String
deriving DecidableEq, Repr

/-- Accumulated output of one cross-validation helper (the lists the
Python code mutates in place). -/
structure CrossResult where
  passed : List String
  failed : List String
  notes : List String
deriving DecidableEq, Repr

/-! ## Configuration (`src/config.py`, default environment) -/

/-- `MIN_FIELD_CONFIDENCE` with its default value `0.5`. -/
def minFieldConfidence : ℚ := 0.5

/-! ## Regex recognizers

Each recognizer is an executable decision procedure for the language of
the corresponding anchored pattern in `Config.VALIDATION_RULES` (used with
`re.match`, and each of these patterns carries both `^` and `$`). -/

/-- `^[a-zA-Z0-9._%+-]+@[a-zA-Z0-9.-]+\.[a-zA-Z]{2,}$`: local part over
its class, one `@`, a domain over its class whose last dot is preceded by
at least one character and followed by at least two letters. -/
def emailMatch (s : String) : Bool :=
  let localChar : Char → Bool := fun c =>
    c.isAlpha || c.isDigit || c = '.' || c = '_' || c = '%' || c = '+' || c = '-'
  let domainChar : Char → Bool := fun c => c.isAlpha || c.isDigit || c = '.' || c = '-'
  let l := s.data.takeWhile (fun c => c ≠ '@')
  match s.data.dropWhile (fun c => c ≠ '@') with
  | '@' :: r =>
    !l.isEmpty && l.all localChar &&
    !(r.any (fun c => c = '@')) && r.all domainChar &&
    (let tldRev := r.reverse.takeWhile (fun c => c ≠ '.')
     match r.reverse.dropWhile (fun c => c ≠ '.') with
     | '.' :: dRev => !dRev.isEmpty && tldRev.length ≥ 2 && tldRev.all Char.isAlpha
     | _ => false)
  | _ => false

/-- `^\+?[\d\s\-()]{10,}$`: optional leading plus, then at least ten
characters drawn from digits, whitespace, dash and parentheses. -/
def phoneMatch (s : String) : Bool :=
  let cs := match s.data with
    | '+' :: r => r
    | cs => cs
  cs.length ≥ 10 && cs.all (fun c => c.isDigit || c.isWhitespace || c = '-' || c = '(' || c = ')')

/-- The fully anchored date pattern of `VALIDATION_RULES`: one or two
digits, a separator that is a slash or dash, one or two digits, another
such separator, then two to four digits, end of string.  Because the
separators are not digits, matchability is equivalent to the maximal
digit runs having the required lengths. -/
def dateMatchFull (s : String) : Bool :=
  let d1 := s.data.takeWhile Char.isDigit
  match s.data.dropWhile Char.isDigit with
  | c1 :: r2 =>
    (c1 = '/' || c1 = '-') && 1 ≤ d1.length && d1.length ≤ 2 &&
    (let d2 := r2.takeWhile Char.isDigit
     match r2.dropWhile Char.isDigit with
     | c2 :: r4 =>
       (c2 = '/' || c2 = '-') && 1 ≤ d2.length && d2.length ≤ 2 &&
       r4.all Char.isDigit && 2 ≤ r4.length && r4.length ≤ 4
     | [] => false)
  | [] => false

/-- `re.match` with the same date pattern but without end-of-string
anchoring (the date fallback inside
`ExtractionAgent._validate_field_format`): a prefix of the string must
match, so the final digit group only needs at least two digits
available. -/
def dateMatchStart (s : String) : Bool :=
  let d1 := s.data.takeWhile Char.isDigit
  match s.data.dropWhile Char.isDigit with
  | c1 :: r2 =>
    (c1 = '/' || c1 = '-') && 1 ≤ d1.length && d1.length ≤ 2 &&
    (let d2 := r2.takeWhile Char.isDigit
     match r2.dropWhile Char.isDigit with
     | c2 :: r4 =>
       (c2 = '/' || c2 = '-') && 1 ≤ d2.length && d2.length ≤ 2 &&
       2 ≤ (r4.takeWhile Char.isDigit).length
     | [] => false)
  | [] => false

/-- `^\$?\d+\.?\d{0,2}$`: optional dollar sign, a nonempty digit run,
optionally a dot followed by at most two digits. -/
def amountMatch (s : String) : Bool :=
  let cs := match s.data with
    | '$' :: r => r
    | cs => cs
  let intPart := cs.takeWhile Char.isDigit
  let rest := cs.dropWhile Char.isDigit
  !intPart.isEmpty &&
    (rest.isEmpty ||
      (match rest with
       | '.' :: fr => fr.length ≤ 2 && fr.all Char.isDigit
       | _ => false))

/-- `Config.VALIDATION_RULES` in insertion order, with each pattern
replaced by its recognizer.  `_validate_field_format` iterates this dict
in exactly this order. -/
def validationRulesList : List (String × (String → Bool)) :=
  [("email", emailMatch), ("phone", phoneMatch), ("date", dateMatchFull), ("amount", amountMatch)]

/-! ## Rendering of numbers inside note strings

The Python source interpolates floats into note strings (`str(float)` in
f-strings, and a two-decimal format for the low-confidence note).  These
renderers model CPython's output for the decimal-representable values the
pipeline produces. -/

/-- Left-pad a digit string with zeros to width `k`. -/
def padZeros (s : String) (k : Nat) : String :=
  String.mk (List.replicate (k - s.length) '0') ++ s

/-- Python `str()` of a float, for values with a finite decimal expansion
(the only values amount parsing and the scoring arithmetic produce):
shortest decimal form, with integral values rendered with a trailing
`.0`. -/
def pyFloatStr (q : ℚ) : String :=
  let sign := if q < 0 then "-" else ""
  let a := |q|
  match (List.range 18).find? (fun k => (a * (10 : ℚ) ^ k).den = 1) with
  | some 0 => sign ++ toString a.num ++ ".0"
  | some k =>
      let n := (a * (10 : ℚ) ^ k).num.toNat
      sign ++ toString (n / 10 ^ k) ++ "." ++ padZeros (toString (n % 10 ^ k)) k
  | none => sign ++ toString a.num ++ "/" ++ toString a.den

/-- Python fixed two-decimal float formatting, as used by the
low-confidence note. -/
def formatTwoDecimals (q : ℚ) : String :=
  let sign := if q < 0 then "-" else ""
  let m := (round (|q| * 100) : ℤ).toNat
  sign ++ toString (m / 100) ++ "." ++ padZeros (toString (m % 100)) 2

/-! ## Field Validator (`ValidationAgent._validate_field`) -/

/-- Note attached when a field's confidence is below the threshold. -/
def lowConfidenceNote (c : ℚ) : String :=
  "Low confidence: " ++ formatTwoDecimals c

/-- The accumulated `(rules_passed, rules_failed, notes)` triple built by
the non-empty branch of `_validate_field`: email, phone, date and amount
format checks keyed on substrings of the lowercased field name, then the
confidence-threshold check, in source order. -/
def fieldRuleResults (field : ExtractedField) :
    List String × List String × List String :=
  let nameL := lowerStr field.name
  let emailR : List String × List String × List String :=
    if strContainsSub nameL "email" then
      if emailMatch field.value then (["email_format"], [], [])
      else ([], ["email_format"], ["Invalid email format"])
    else ([], [], [])
  let phoneR : List String × List String × List String :=
    if strContainsSub nameL "phone" then
      if phoneMatch field.value then (["phone_format"], [], [])
      else ([], ["phone_format"], ["Invalid phone format"])
    else ([], [], [])
  let dateR : List String × List String × List String :=
    if strContainsSub nameL "date" then
      if dateMatchFull field.value then (["date_format"], [], [])
      else ([], ["date_format"], ["Invalid date format"])
    else ([], [], [])
  let amountR : List String × List String × List String :=
    if ["amount", "total", "price", "cost", "charge"].any (fun kw => strContainsSub nameL kw) then
      if amountMatch field.value then (["amount_format"], [], [])
      else ([], ["amount_format"], ["Invalid amount format"])
    else ([], [], [])
  let confR : List String × List String × List String :=
    if field.confidence ≥ minFieldConfidence then (["confidence_threshold"], [], [])
    else ([], ["confidence_threshold"], [lowConfidenceNote field.confidence])
  (emailR.1 ++ phoneR.1 ++ dateR.1 ++ amountR.1 ++ confR.1,
   emailR.2.1 ++ phoneR.2.1 ++ dateR.2.1 ++ amountR.2.1 ++ confR.2.1,
   emailR.2.2 ++ phoneR.2.2 ++ dateR.2.2 ++ amountR.2.2 ++ confR.2.2)

/-- `ValidationAgent._validate_field`: an empty value short-circuits to
the `empty_value` failure; otherwise the field passes iff no sub-rule
failed, and the notes are the fired notes joined with a semicolon (or
`"Valid"`). -/
def validateField (field : ExtractedField) : FieldValidation :=
  if field.value = "" then
    { passed := false, rulesPassed := [], rulesFailed := ["empty_value"],
      notes := "Field is empty" }
  else
    let r := fieldRuleResults field
    { passed := r.2.1.isEmpty,
      rulesPassed := r.1,
      rulesFailed := r.2.1,
      notes := if r.2.2.isEmpty then "Valid" else String.intercalate "; " r.2.2 }

/-! ## Cross Validator (`ValidationAgent._perform_cross_validation`) -/

/-- The dict comprehension in `_perform_cross_validation`:
name-value pairs of the fields with non-empty value, in order. -/
def fieldDictPairs (fields : List ExtractedField) : List (String × String) :=
  fields.filterMap (fun f => if f.value = "" then none else some (f.name, f.value))

/-- Python `dict.get(k, default)` over the pairs of `fieldDictPairs`:
because later dict-comprehension entries overwrite earlier ones, the last
pair with the requested key wins. -/
def dictGetD (d : List (String × String)) (k dflt : String) : String :=
  match (d.filter (fun p => p.1 = k)).getLast? with
  | some p => p.2
  | none => dflt

/-- The f-string note emitted on an invoice total mismatch. -/
def totalMismatchNote (total subtotal tax : ℚ) : String :=
  "Total mismatch: " ++ pyFloatStr total ++ " != " ++ pyFloatStr subtotal
    ++ " + " ++ pyFloatStr tax

/-- `ValidationAgent._validate_invoice_totals`: parse `subtotal`, `tax`
and `total` (defaulting to `"0"` when absent) and compare with a `0.01`
tolerance; any `ValueError` from parsing is caught and becomes the
`totals_calculation` failure. -/
def validateInvoiceTotals (d : List (String × String)) : CrossResult :=
  match parseAmount (dictGetD d "subtotal" "0"), parseAmount (dictGetD d "tax" "0"),
      parseAmount (dictGetD d "total" "0") with
  | some subtotal, some tax, some total =>
      if |total - (subtotal + tax)| < 0.01 then ⟨["totals_match"], [], []⟩
      else ⟨[], ["totals_match"], [totalMismatchNote total subtotal tax]⟩
  | _, _, _ => ⟨[], ["totals_calculation"], ["Could not parse amounts for total validation"]⟩

/-- `ValidationAgent._validate_medical_bill_amounts`. -/
def validateMedicalBillAmounts (d : List (String × String)) : CrossResult :=
  match parseAmount (dictGetD d "charges" "0"), parseAmount (dictGetD d "insurance_paid" "0"),
      parseAmount (dictGetD d "patient_responsibility" "0") with
  | some charges, some insurancePaid, some patientResponsibility =>
      if |charges - (insurancePaid + patientResponsibility)| < 0.01 then
        ⟨["medical_amounts_match"], [], []⟩
      else ⟨[], ["medical_amounts_match"], ["Medical bill amounts do not balance"]⟩
  | _, _, _ => ⟨[], ["medical_amounts_calculation"], ["Could not parse medical amounts"]⟩

/-- `ValidationAgent._validate_prescription_fields`: the required-fields
check followed by the numeric-refills check. -/
def validatePrescriptionFields (d : List (String × String)) : CrossResult :=
  let missing := ["patient_name", "medication_name", "prescriber_name"].filter
    (fun k => dictGetD d k "" = "")
  let reqR : CrossResult :=
    if missing.isEmpty then ⟨["prescription_required_fields"], [], []⟩
    else ⟨[], ["prescription_required_fields"],
      ["Missing required fields: " ++ String.intercalate ", " missing]⟩
  let refills := dictGetD d "refills" ""
  let refR : CrossResult :=
    if refills ≠ "" ∧ refills.data.all Char.isDigit then ⟨["refills_numeric"], [], []⟩
    else if refills ≠ "" then ⟨[], ["refills_numeric"], ["Refills should be numeric"]⟩
    else ⟨[], [], []⟩
  ⟨reqR.passed ++ refR.passed, reqR.failed ++ refR.failed, reqR.notes ++ refR.notes⟩

/-- `ValidationAgent._validate_date_consistency`: only records that some
date-named key exists. -/
def validateDateConsistency (d : List (String × String)) : CrossResult :=
  if d.any (fun p => strContainsSub (lowerStr p.1) "date") then
    ⟨["date_fields_present"], [], []⟩
  else ⟨[], [], ["No date fields found"]⟩

/-- `ValidationAgent._perform_cross_validation`: document-type-specific
checks followed by the date-consistency check, all appending to the same
accumulators. -/
def performCrossValidation (fields : List ExtractedField) (docType : String) : CrossResult :=
  let d := fieldDictPairs fields
  let typedR : CrossResult :=
    if docType = "invoice" then validateInvoiceTotals d
    else if docType = "medical_bill" then validateMedicalBillAmounts d
    else if docType = "prescription" then validatePrescriptionFields d
    else ⟨[], [], []⟩
  let datesR := validateDateConsistency d
  ⟨typedR.passed ++ datesR.passed, typedR.failed ++ datesR.failed, typedR.notes ++ datesR.notes⟩

/-- The raw (pre-deduplication) accumulated rule lists of
`ValidationAgent.validate_extraction`: each field contributes its passed
sub-rules when it passed and its failed sub-rules when it failed, then
the cross-validation results are appended. -/
def rawValidationRules (fields : List ExtractedField) (docType : String) :
    List String × List String :=
  let results := fields.map validateField
  let fieldPassed := (results.filter (fun r => r.passed)).flatMap (fun r => r.rulesPassed)
  let fieldFailed := (results.filter (fun r => !r.passed)).flatMap (fun r => r.rulesFailed)
  let cross := performCrossValidation fields docType
  (fieldPassed ++ cross.passed, fieldFailed ++ cross.failed)

/-- `ValidationAgent.validate_extraction`.  The score is computed from the
raw rule lists; the stored rule lists are the Python `list(set(...))`,
modelled by `List.dedup` (the set conversion fixes membership and
cardinality but no particular order, and nothing downstream reads the
order). -/
def validateExtraction (fields : List ExtractedField) (docType : String) : QualityAssurance :=
  let raw := rawValidationRules fields docType
  let cross := performCrossValidation fields docType
  let totalValidations := raw.1.length + raw.2.length
  let score : ℚ := if 0 < totalValidations then (raw.1.length : ℚ) / (totalValidations : ℚ) else 0
  let lowConfNames := (fields.filter (fun f => f.confidence < minFieldConfidence)).map
    (fun f => f.name)
  let notes := cross.notes ++
    (if lowConfNames.isEmpty then []
     else [toString lowConfNames.length ++ " low-confidence fields: "
       ++ String.intercalate ", " lowConfNames])
  { passedRules := raw.1.dedup,
    failedRules := raw.2.dedup,
    notes := if notes.isEmpty then "All validations passed" else String.intercalate "; " notes,
    crossValidationScore := score }

/-! ## Confidence Scorer (`ExtractionAgent`) -/

/-- The word boxes retained by the loop in
`ExtractionAgent._get_ocr_confidence_for_text`: boxes whose lowercased
text contains some lowercased whitespace-separated word of the value as a
substring. -/
def matchingBoxes (text : String) (ocr : OCRData) : List WordBox :=
  let textWords := splitWs (lowerStr text)
  ocr.wordBoxes.filter (fun box => textWords.any (fun w => strContainsSub (lowerStr box.text) w))

/-- `ExtractionAgent._get_ocr_confidence_for_text`: `0.5` when the value
is empty or no word boxes exist, the mean confidence of the matching
boxes otherwise, `0.5` again when no box matches. -/
def getOcrConfidenceForText (text : String) (ocr : OCRData) : ℚ :=
  if text = "" ∨ ocr.wordBoxes = [] then 0.5
  else
    let matching := matchingBoxes text ocr
    if matching = [] then 0.5
    else ((matching.map (fun b => b.confidence)).sum) / (matching.length : ℚ)

/-- `ExtractionAgent._validate_field_format`: first matching key of
`VALIDATION_RULES` that occurs in the lowercased field name decides with
0.9 or 0.3; otherwise the amount-or-total and date fallbacks decide with
0.8 or 0.4; otherwise 0.6; an empty value scores 0. -/
def validateFieldFormat (fieldName value : String) : ℚ :=
  if value = "" then 0
  else
    match validationRulesList.find? (fun p => strContainsSub (lowerStr fieldName) p.1) with
    | some p => if p.2 value then 0.9 else 0.3
    | none =>
      if strContainsSub (lowerStr fieldName) "amount"
          ∨ strContainsSub (lowerStr fieldName) "total" then
        if amountMatch value then 0.8 else 0.4
      else if strContainsSub (lowerStr fieldName) "date" then
        if dateMatchStart value then 0.8 else 0.4
      else 0.6

/-- The `relevance_map` of `ExtractionAgent._get_field_relevance`. -/
def relevanceMap : List (String × List String) :=
  [("invoice", ["invoice_number", "vendor_name", "total", "date", "customer_name"]),
   ("medical_bill", ["patient_name", "provider_name", "charges", "date_of_service"]),
   ("prescription", ["patient_name", "medication_name", "prescriber_name", "dosage"])]

/-- `ExtractionAgent._get_field_relevance`: 0.9 for a field on the
document type's list, 0.7 otherwise. -/
def getFieldRelevance (fieldName docType : String) : ℚ :=
  let relevantFields := ((relevanceMap.find? (fun p => p.1 = docType)).map (fun p => p.2)).getD []
  if relevantFields.contains fieldName then 0.9 else 0.7

/-- `ExtractionAgent._calculate_field_confidence`: the clamped weighted
combination of the model confidence (default 0.5), OCR-overlap
confidence, format-validity confidence and relevance confidence. -/
def calculateFieldConfidence (fieldName : String) (fd : RawFieldData) (ocr : OCRData)
    (docType : String) : ℚ :=
  let baseConfidence := fd.extractionConfidence.getD 0.5
  let ocrConfidence := getOcrConfidenceForText fd.value ocr
  let validationConfidence := validateFieldFormat fieldName fd.value
  let relevanceConfidence := getFieldRelevance fieldName docType
  let finalConfidence := baseConfidence * 0.4 + ocrConfidence * 0.3
    + validationConfidence * 0.2 + relevanceConfidence * 0.1
  min (max finalConfidence 0) 1

/-- `ExtractionAgent.extract_structured_data`.  The whole body sits in a
`try/except` that returns `[]`, so the LLM call and response parsing are
modelled as one `Except`-valued input; on success, each entry of the
response's `fields` mapping with a truthy value becomes an
`ExtractedField` with the computed confidence. -/
def extractStructuredData (llmResult : Except String (List (String × RawFieldData)))
    (ocr : OCRData) (docType : String) : List ExtractedField :=
  match llmResult with
  | .error _ => []
  | .ok raws =>
    raws.filterMap (fun nf =>
      if nf.2.value = "" then none
      else some { name := nf.1, value := nf.2.value,
                  confidence := calculateFieldConfidence nf.1 nf.2 ocr docType })

/-! ## Overall Scorer and Pipeline Orchestrator
(`src/core/document_processor.py`) -/

/-- `DocumentProcessor._calculate_overall_confidence`: `0.0` for an empty
field list, otherwise a clamped weighted combination of average field
confidence, type confidence, OCR confidence (read with default `0.0`),
cross-validation score and completeness. -/
def calculateOverallConfidence (fields : List ExtractedField) (typeConfidence : ℚ)
    (ocr : OCRData) (qa : QualityAssurance) : ℚ :=
  if fields = [] then 0
  else
    let avgFieldConfidence := ((fields.map (fun f => f.confidence)).sum) / (fields.length : ℚ)
    let ocrConf := ocr.averageConfidence.getD 0
    let completeness := min ((fields.length : ℚ) / 8) 1
    let overall := avgFieldConfidence * 0.35 + typeConfidence * 0.20 + ocrConf * 0.20
      + qa.crossValidationScore * 0.15 + completeness * 0.10
    min (max overall 0) 1

/-- `DocumentProcessor._prepare_images` catches its own exceptions and
degrades to an empty image list; pages carry no information the specified
computations read, so a page is a `Unit`. -/
def prepareImages (decodeResult : Except String (List Unit)) : List Unit :=
  match decodeResult with
  | .error _ => []
  | .ok images => images

/-- The terminal error value built in the `except` block of
`DocumentProcessor.process_document` (all other `QualityAssurance` fields
take their model defaults). -/
def errorExtraction (msg : String) : DocumentExtraction :=
  { docType := "invoice", fields := [], overallConfidence := 0,
    qa := { passedRules := [], failedRules := ["processing_error"],
            notes := "Processing failed: " ++ msg, crossValidationScore := 0 } }

/-- The admissible document types of the pydantic model:
`DocumentExtraction.doc_type` is declared
`Literal["invoice", "medical_bill", "prescription"]`. -/
def docTypeLiterals : List String :=
  ["invoice", "medical_bill", "prescription"]

/-- The message of the pydantic `ValidationError` raised when a value
outside the `Literal` reaches the `doc_type` field at packaging.  The
exact text is produced by the pydantic library and is not part of this
repository; only the fact that some exception with some message is
raised matters to the pipeline, which stringifies it into the
processing-error notes. -/
def docTypeValidationError (dt : String) : String :=
  "1 validation error for DocumentExtraction: doc_type must be one of "
    ++ String.intercalate ", " docTypeLiterals ++ "; got " ++ dt

/-- The `try` block of `DocumentProcessor.process_document`: image
preparation, the explicit `ValueError` on an empty image list, document
type detection, OCR, extraction, validation and scoring.  Stages that can
raise an exception reaching this block (type detection, OCR) are
`Except`-valued inputs; an `.error` propagates exactly as a raised
exception does.  Packaging the result constructs the pydantic
`DocumentExtraction`, whose `doc_type` field is a `Literal`: a detected
type outside `docTypeLiterals` makes construction raise a
`ValidationError` inside the `try` block (the clamped
`overall_confidence` always satisfies its own `ge`/`le` bounds, so
`doc_type` is the only constructor check that can fail). -/
def processCore (decodeResult : Except String (List Unit))
    (detectResult : Except String (String × ℚ))
    (ocrResult : Except String OCRData)
    (llmResult : Except String (List (String × RawFieldData))) :
    Except String DocumentExtraction :=
  let images := prepareImages decodeResult
  if images.isEmpty then .error "Could not process file - no valid images found"
  else
    match detectResult with
    | .error e => .error e
    | .ok dt =>
      match ocrResult with
      | .error e => .error e
      | .ok ocrData =>
        let fields := extractStructuredData llmResult ocrData dt.1
        let qa := validateExtraction fields dt.1
        let conf := calculateOverallConfidence fields dt.2 ocrData qa
        if dt.1 ∈ docTypeLiterals then
          .ok { docType := dt.1, fields := fields, overallConfidence := conf, qa := qa }
        else .error (docTypeValidationError dt.1)

/-- `DocumentProcessor.process_document`: the `try` block with its
top-level `except Exception` handler.  The function is total: every
failure becomes the `errorExtraction` value. -/
def processDocument (decodeResult : Except String (List Unit))
    (detectResult : Except String (String × ℚ))
    (ocrResult : Except String OCRData)
    (llmResult : Except String (List (String × RawFieldData))) : DocumentExtraction :=
  match processCore decodeResult detectResult ocrResult llmResult with
  | .ok r => r
  | .error e => errorExtraction e

/-- A concrete pipeline run whose extraction stage raises: decoding
yields one page, type detection succeeds with `("invoice", 0.8)`, OCR
succeeds with no word boxes and average confidence `0.9`, and the LLM
extraction call raises. -/
def claim2Run : DocumentExtraction :=
  processDocument (.ok [()]) (.ok ("invoice", 0.8)) (.ok ⟨"", [], some 0.9⟩)
    (.error "LLM call failed")

end DocExtract

namespace DocExtract

/-! ## General helper lemmas -/

theorem stripAmountChars_idem (s : String) :
    stripAmountChars (stripAmountChars s) = stripAmountChars s := by
  simp [stripAmountChars, List.filter_filter]

theorem listStartsWith_self (l : List Char) : listStartsWith l l = true := by
  induction l with
  | nil => rfl
  | cons a t ih => simp [listStartsWith, ih]

theorem containsSub_self (r : List Char) : containsSub r r = true := by
  cases r with
  | nil => rfl
  | cons a t => simp [containsSub, listStartsWith_self]

theorem containsSub_append_right (l r : List Char) : containsSub (l ++ r) r = true := by
  induction l with
  | nil => simpa using containsSub_self r
  | cons a t ih => simp [containsSub, ih]

theorem strContainsSub_append_right (a b : String) : strContainsSub (a ++ b) b = true := by
  have h : (a ++ b).data = a.data ++ b.data := by
    simp [String.data_append]
  simp [strContainsSub, h, containsSub_append_right]

theorem validateField_passed_rulesFailed (f : ExtractedField)
    (h : (validateField f).passed = true) : (validateField f).rulesFailed = [] := by
  by_cases hv : f.value = ""
  · simp [validateField, hv] at h
  · simp only [validateField, hv, if_neg, ite_false] at h ⊢
    simpa [List.isEmpty_iff] using h

end DocExtract

/-! ## Claims -/

/-- C8: a field whose value is the empty string fails validation with the
single failed rule `empty_value`; no format or confidence rule is
evaluated, no passed rules are recorded, and the note is the dedicated
empty-field note. -/
theorem claim8_empty_value_short_circuit (f : DocExtract.ExtractedField)
    (h : f.value = "") :
    DocExtract.validateField f =
      { passed := false, rulesPassed := [], rulesFailed := ["empty_value"],
        notes := "Field is empty" } := by
  simp [DocExtract.validateField, h]

/-- Witness for C8 at a concrete empty-valued field. -/
theorem claim8_witness :
    (DocExtract.ExtractedField.mk "total" "" 0.9).value = ""
    ∧ DocExtract.validateField ⟨"total", "", 0.9⟩ =
      { passed := false, rulesPassed := [], rulesFailed := ["empty_value"],
        notes := "Field is empty" } :=
  ⟨rfl, claim8_empty_value_short_circuit ⟨"total", "", 0.9⟩ rfl⟩

/-- C7: the overall confidence is exactly `0` for an empty field list
regardless of the other inputs, and for a non-empty field list it is the
clamped weighted combination of average field confidence (0.35), type
confidence (0.20), OCR average confidence (0.20), cross-validation score
(0.15) and completeness `min(count/8, 1)` (0.10). -/
theorem claim7_overall_confidence (fields : List DocExtract.ExtractedField)
    (tc : ℚ) (ocr : DocExtract.OCRData) (qa : DocExtract.QualityAssurance) :
    DocExtract.calculateOverallConfidence [] tc ocr qa = 0
    ∧ (fields ≠ [] →
        DocExtract.calculateOverallConfidence fields tc ocr qa =
          min (max (0.35 * ((fields.map (fun f => f.confidence)).sum / (fields.length : ℚ))
            + 0.20 * tc
            + 0.20 * ocr.averageConfidence.getD 0
            + 0.15 * qa.crossValidationScore
            + 0.10 * min ((fields.length : ℚ) / 8) 1) 0) 1) := by
  constructor
  · rfl
  · intro h
    simp only [DocExtract.calculateOverallConfidence, if_neg h]
    ring_nf

/-- Witness for C7 at a concrete non-empty field list. -/
theorem claim7_witness :
    ([⟨"vendor_name", "Acme", 0.8⟩] : List DocExtract.ExtractedField) ≠ []
    ∧ DocExtract.calculateOverallConfidence [⟨"vendor_name", "Acme", 0.8⟩] 0.5
        ⟨"", [], some 0.6⟩ ⟨[], [], "", 0.7⟩ =
      min (max (0.35 * ((([⟨"vendor_name", "Acme", 0.8⟩] :
              List DocExtract.ExtractedField).map (fun f => f.confidence)).sum
            / (([⟨"vendor_name", "Acme", 0.8⟩] : List DocExtract.ExtractedField).length : ℚ))
        + 0.20 * 0.5
        + 0.20 * (DocExtract.OCRData.mk "" [] (some 0.6)).averageConfidence.getD 0
        + 0.15 * (DocExtract.QualityAssurance.mk [] [] "" 0.7).crossValidationScore
        + 0.10 * min ((([⟨"vendor_name", "Acme", 0.8⟩] :
              List DocExtract.ExtractedField).length : ℚ) / 8) 1) 0) 1 :=
  ⟨by simp,
   (claim7_overall_confidence [⟨"vendor_name", "Acme", 0.8⟩] 0.5
      ⟨"", [], some 0.6⟩ ⟨[], [], "", 0.7⟩).2 (by simp)⟩

namespace DocExtract

theorem splitWs_lower_empty : splitWs (lowerStr "") = [] := by decide

theorem matchingBoxes_of_empty_value (ocr : OCRData) : matchingBoxes "" ocr = [] := by
  simp [matchingBoxes, splitWs_lower_empty]

theorem getOcrConfidenceForText_default (text : String) (ocr : OCRData)
    (h : text = "" ∨ ocr.wordBoxes = []) : getOcrConfidenceForText text ocr = 0.5 := by
  unfold getOcrConfidenceForText
  rw [if_pos h]

theorem getOcrConfidenceForText_no_match (text : String) (ocr : OCRData)
    (h : matchingBoxes text ocr = []) : getOcrConfidenceForText text ocr = 0.5 := by
  unfold getOcrConfidenceForText
  by_cases hc : text = "" ∨ ocr.wordBoxes = []
  · rw [if_pos hc]
  · rw [if_neg hc]
    simp only [h, ite_true]

end DocExtract

/-- C4: the per-field confidence is the clamp to `[0, 1]` of
`0.4 * m + 0.3 * o + 0.2 * f + 0.1 * r` where `m` is the model-reported
confidence defaulting to `0.5` when absent, `o` the OCR-overlap
confidence, `f` the format-validity sub-score and `r` the document-type
relevance sub-score; and `o` is `0.5` when the value is empty, there are
no word boxes or no box matches (a box matches when some lowercased word
of the value occurs in its lowercased text), and the average confidence
of the matching boxes otherwise. -/
theorem claim4_field_confidence_formula (fieldName : String)
    (fd : DocExtract.RawFieldData) (ocr : DocExtract.OCRData) (docType : String) :
    DocExtract.calculateFieldConfidence fieldName fd ocr docType =
      min (max (0.4 * fd.extractionConfidence.getD 0.5
        + 0.3 * DocExtract.getOcrConfidenceForText fd.value ocr
        + 0.2 * DocExtract.validateFieldFormat fieldName fd.value
        + 0.1 * DocExtract.getFieldRelevance fieldName docType) 0) 1
    ∧ (fd.value = "" ∨ ocr.wordBoxes = [] →
        DocExtract.getOcrConfidenceForText fd.value ocr = 0.5)
    ∧ (DocExtract.matchingBoxes fd.value ocr = [] →
        DocExtract.getOcrConfidenceForText fd.value ocr = 0.5)
    ∧ (DocExtract.matchingBoxes fd.value ocr ≠ [] →
        DocExtract.getOcrConfidenceForText fd.value ocr =
          ((DocExtract.matchingBoxes fd.value ocr).map (fun b => b.confidence)).sum
            / ((DocExtract.matchingBoxes fd.value ocr).length : ℚ)) := by
  refine ⟨?_, DocExtract.getOcrConfidenceForText_default fd.value ocr,
    DocExtract.getOcrConfidenceForText_no_match fd.value ocr, ?_⟩
  · simp only [DocExtract.calculateFieldConfidence]
    ring_nf
  · intro h
    unfold DocExtract.getOcrConfidenceForText
    have hv : fd.value ≠ "" := by
      intro hv
      exact h (by rw [hv]; exact DocExtract.matchingBoxes_of_empty_value ocr)
    have hb : ocr.wordBoxes ≠ [] := by
      intro hb
      exact h (by simp [DocExtract.matchingBoxes, hb])
    rw [if_neg (by simp [hv, hb])]
    simp only [h, ite_false, if_neg h]

/-- Witness for C4: the clamp formula at a concrete field and the `0.5`
OCR default at an empty value. -/
theorem claim4_witness :
    DocExtract.calculateFieldConfidence "vendor_name" ⟨"Acme", some 0.9⟩
        ⟨"", [], none⟩ "invoice" =
      min (max (0.4 * ((some (0.9 : ℚ)).getD 0.5)
        + 0.3 * DocExtract.getOcrConfidenceForText "Acme" ⟨"", [], none⟩
        + 0.2 * DocExtract.validateFieldFormat "vendor_name" "Acme"
        + 0.1 * DocExtract.getFieldRelevance "vendor_name" "invoice") 0) 1
    ∧ DocExtract.getOcrConfidenceForText "" ⟨"", [], none⟩ = 0.5 :=
  ⟨(claim4_field_confidence_formula "vendor_name" ⟨"Acme", some 0.9⟩
      ⟨"", [], none⟩ "invoice").1,
   (claim4_field_confidence_formula "other" ⟨"", none⟩ ⟨"", [], none⟩ "invoice").2.1
     (Or.inl rfl)⟩

namespace DocExtract

/-! ## Evaluation lemmas for concrete amount strings -/

theorem parseAmount_zero : parseAmount "0" = some 0 := by
  have h : parseAmount "0" = some ((1 : ℚ) * (natOfDigits ['0'] : ℚ)) := rfl
  rw [h, show natOfDigits ['0'] = 0 from by decide]
  norm_num

theorem parseAmount_eighty : parseAmount "80.00" = some 80 := by
  have h : parseAmount "80.00" = some ((1 : ℚ) * ((natOfDigits ['8', '0'] : ℚ)
      + (natOfDigits ['0', '0'] : ℚ) / (10 : ℚ) ^ (['0', '0'] : List Char).length)) := rfl
  rw [h, show natOfDigits ['8', '0'] = 80 from by decide,
    show natOfDigits ['0', '0'] = 0 from by decide]
  norm_num

theorem parseAmount_eight : parseAmount "8.00" = some 8 := by
  have h : parseAmount "8.00" = some ((1 : ℚ) * ((natOfDigits ['8'] : ℚ)
      + (natOfDigits ['0', '0'] : ℚ) / (10 : ℚ) ^ (['0', '0'] : List Char).length)) := rfl
  rw [h, show natOfDigits ['8'] = 8 from by decide,
    show natOfDigits ['0', '0'] = 0 from by decide]
  norm_num

theorem parseAmount_eightyEight : parseAmount "88.00" = some 88 := by
  have h : parseAmount "88.00" = some ((1 : ℚ) * ((natOfDigits ['8', '8'] : ℚ)
      + (natOfDigits ['0', '0'] : ℚ) / (10 : ℚ) ^ (['0', '0'] : List Char).length)) := rfl
  rw [h, show natOfDigits ['8', '8'] = 88 from by decide,
    show natOfDigits ['0', '0'] = 0 from by decide]
  norm_num

theorem parseAmount_ninety : parseAmount "90.00" = some 90 := by
  have h : parseAmount "90.00" = some ((1 : ℚ) * ((natOfDigits ['9', '0'] : ℚ)
      + (natOfDigits ['0', '0'] : ℚ) / (10 : ℚ) ^ (['0', '0'] : List Char).length)) := rfl
  rw [h, show natOfDigits ['9', '0'] = 90 from by decide,
    show natOfDigits ['0', '0'] = 0 from by decide]
  norm_num

theorem parseAmount_abc : parseAmount "abc" = some 0 := rfl

theorem parseAmount_twoDots : parseAmount "1.2.3" = none := rfl

/-! ## Evaluation lemmas for the empty field set -/

theorem validateInvoiceTotals_nil : validateInvoiceTotals [] = ⟨["totals_match"], [], []⟩ := by
  simp only [validateInvoiceTotals,
    show dictGetD [] "subtotal" "0" = "0" from rfl,
    show dictGetD [] "tax" "0" = "0" from rfl,
    show dictGetD [] "total" "0" = "0" from rfl, parseAmount_zero]
  rw [if_pos (by norm_num : |(0 : ℚ) - (0 + 0)| < 0.01)]

theorem performCrossValidation_nil_invoice :
    performCrossValidation [] "invoice" = ⟨["totals_match"], [], ["No date fields found"]⟩ := by
  simp [performCrossValidation, fieldDictPairs, validateDateConsistency,
    validateInvoiceTotals_nil]

theorem validateExtraction_nil_invoice :
    (validateExtraction [] "invoice").passedRules = ["totals_match"]
    ∧ (validateExtraction [] "invoice").failedRules = [] := by
  have hraw : rawValidationRules [] "invoice" = (["totals_match"], []) := by
    simp [rawValidationRules, performCrossValidation_nil_invoice]
  constructor
  · show (rawValidationRules [] "invoice").1.dedup = ["totals_match"]
    rw [hraw]
    simp
  · show (rawValidationRules [] "invoice").2.dedup = []
    rw [hraw]
    simp

end DocExtract

/-- C1: whenever an exception reaches the top-level handler of
`process_document` with message `e` (modelled as the staged pipeline body
evaluating to `.error e`), the call returns the terminal error
extraction — document type `"invoice"`, no fields, overall confidence
`0`, failed rules exactly `["processing_error"]`, and notes containing
the exception message — and never raises: `processDocument` is total by
construction, so no error value crosses the boundary. -/
theorem claim1_top_level_error_shape
    (decodeResult : Except String (List Unit))
    (detectResult : Except String (String × ℚ))
    (ocrResult : Except String DocExtract.OCRData)
    (llmResult : Except String (List (String × DocExtract.RawFieldData)))
    (e : String)
    (h : DocExtract.processCore decodeResult detectResult ocrResult llmResult = .error e) :
    DocExtract.processDocument decodeResult detectResult ocrResult llmResult =
      DocExtract.errorExtraction e
    ∧ (DocExtract.errorExtraction e).docType = "invoice"
    ∧ (DocExtract.errorExtraction e).fields = []
    ∧ (DocExtract.errorExtraction e).overallConfidence = 0
    ∧ (DocExtract.errorExtraction e).qa.passedRules = []
    ∧ (DocExtract.errorExtraction e).qa.failedRules = ["processing_error"]
    ∧ DocExtract.strContainsSub (DocExtract.errorExtraction e).qa.notes e = true := by
  refine ⟨?_, rfl, rfl, rfl, rfl, rfl, ?_⟩
  · simp [DocExtract.processDocument, h]
  · exact DocExtract.strContainsSub_append_right "Processing failed: " e

/-- Witness for C1: a run whose type-detection stage raises. -/
theorem claim1_witness :
    DocExtract.processCore (.ok [()]) (.error "model call failed")
      (.ok ⟨"", [], some 0.9⟩) (.ok []) = .error "model call failed"
    ∧ DocExtract.processDocument (.ok [()]) (.error "model call failed")
        (.ok ⟨"", [], some 0.9⟩) (.ok []) =
      DocExtract.errorExtraction "model call failed" := by
  have hcore : DocExtract.processCore (.ok [()]) (.error "model call failed")
      (.ok ⟨"", [], some 0.9⟩) (.ok []) = .error "model call failed" := rfl
  exact ⟨hcore,
    (claim1_top_level_error_shape (.ok [()]) (.error "model call failed")
      (.ok ⟨"", [], some 0.9⟩) (.ok []) "model call failed" hcore).1⟩

/-- C2 counterexample: in the concrete run `claim2Run` the extraction
stage raises, yet the pipeline result has `failed_rules = []` (the
exception is caught inside the extraction agent, so the empty field set
is validated normally and the invoice totals check passes vacuously),
refuting `qa.failed_rules == ["processing_error"]`. -/
theorem claim2_counterexample :
    DocExtract.claim2Run.docType = "invoice"
    ∧ DocExtract.claim2Run.fields = []
    ∧ DocExtract.claim2Run.overallConfidence = 0
    ∧ DocExtract.claim2Run.qa.failedRules = []
    ∧ DocExtract.claim2Run.qa.failedRules ≠ ["processing_error"] := by
  have hrun : DocExtract.claim2Run =
      ⟨"invoice", [], 0, DocExtract.validateExtraction [] "invoice"⟩ := by
    have hmem : "invoice" ∈ DocExtract.docTypeLiterals := by decide
    simp [DocExtract.claim2Run, DocExtract.processDocument, DocExtract.processCore,
      DocExtract.prepareImages, DocExtract.extractStructuredData,
      DocExtract.calculateOverallConfidence, hmem]
  rw [hrun]
  refine ⟨rfl, rfl, rfl, DocExtract.validateExtraction_nil_invoice.2, ?_⟩
  rw [DocExtract.validateExtraction_nil_invoice.2]
  simp

/-- C2 amended: a document whose extraction stage raises has the
exception caught inside `extract_structured_data` (which returns an empty
field list), and the pipeline continues.  When the detected document type
is one of the three `Literal` values, it completes normally: the result
keeps the detected document type, has `fields = []` and
`overall_confidence = 0.0`, and its QA is the validation of the empty
field set — not the `processing_error` terminal shape.  When the
detected type is outside the `Literal`, packaging raises the pydantic
`ValidationError` and the run degrades to the `processing_error`
terminal shape instead. -/
theorem claim2_extraction_error_amended (images : List Unit) (himg : images ≠ [])
    (dt : String) (tc : ℚ) (ocrData : DocExtract.OCRData) (e : String) :
    (dt ∈ DocExtract.docTypeLiterals →
      DocExtract.processDocument (.ok images) (.ok (dt, tc)) (.ok ocrData) (.error e) =
        { docType := dt, fields := [], overallConfidence := 0,
          qa := DocExtract.validateExtraction [] dt })
    ∧ (dt ∉ DocExtract.docTypeLiterals →
      DocExtract.processDocument (.ok images) (.ok (dt, tc)) (.ok ocrData) (.error e) =
        DocExtract.errorExtraction (DocExtract.docTypeValidationError dt)) := by
  have hne : images.isEmpty = false := by
    simp [List.isEmpty_iff, himg]
  constructor
  · intro h
    simp [DocExtract.processDocument, DocExtract.processCore, DocExtract.prepareImages,
      DocExtract.extractStructuredData, DocExtract.calculateOverallConfidence, hne, h]
  · intro h
    simp [DocExtract.processDocument, DocExtract.processCore, DocExtract.prepareImages,
      DocExtract.extractStructuredData, DocExtract.calculateOverallConfidence, hne, h]

/-- Witness for C2's amended claim: both branches at concrete runs, one
with the detected type inside the `Literal` and one outside it. -/
theorem claim2_witness :
    (([()] : List Unit) ≠ [])
    ∧ "prescription" ∈ DocExtract.docTypeLiterals
    ∧ "receipt" ∉ DocExtract.docTypeLiterals
    ∧ DocExtract.processDocument (.ok [()]) (.ok ("prescription", 0.4))
        (.ok ⟨"", [], none⟩) (.error "boom") =
      { docType := "prescription", fields := [], overallConfidence := 0,
        qa := DocExtract.validateExtraction [] "prescription" }
    ∧ DocExtract.processDocument (.ok [()]) (.ok ("receipt", 0.4))
        (.ok ⟨"", [], none⟩) (.error "boom") =
      DocExtract.errorExtraction (DocExtract.docTypeValidationError "receipt") :=
  ⟨by simp, by decide, by decide,
   (claim2_extraction_error_amended [()] (by simp) "prescription" 0.4
      ⟨"", [], none⟩ "boom").1 (by decide),
   (claim2_extraction_error_amended [()] (by simp) "receipt" 0.4
      ⟨"", [], none⟩ "boom").2 (by decide)⟩

/-- C5: whenever the subtotal, tax and total strings (with `"0"`
substituted for absent fields) all parse as amounts, the invoice
cross-check adds passed rule `totals_match` exactly when
`|total - (subtotal + tax)| < 0.01` and otherwise adds failed rule
`totals_match` with the mismatch note; in particular
subtotal=80.00, tax=8.00, total=88.00 passes and total=90.00 fails. -/
theorem claim5_invoice_totals_tolerance
    (fields : List DocExtract.ExtractedField) (subtotal tax total : ℚ)
    (hs : DocExtract.parseAmount
      (DocExtract.dictGetD (DocExtract.fieldDictPairs fields) "subtotal" "0") = some subtotal)
    (ht : DocExtract.parseAmount
      (DocExtract.dictGetD (DocExtract.fieldDictPairs fields) "tax" "0") = some tax)
    (htt : DocExtract.parseAmount
      (DocExtract.dictGetD (DocExtract.fieldDictPairs fields) "total" "0") = some total) :
    ((|total - (subtotal + tax)| < 0.01 →
        DocExtract.validateInvoiceTotals (DocExtract.fieldDictPairs fields) =
          ⟨["totals_match"], [], []⟩)
     ∧ (¬ |total - (subtotal + tax)| < 0.01 →
        DocExtract.validateInvoiceTotals (DocExtract.fieldDictPairs fields) =
          ⟨[], ["totals_match"], [DocExtract.totalMismatchNote total subtotal tax]⟩))
    ∧ DocExtract.validateInvoiceTotals (DocExtract.fieldDictPairs
        [⟨"subtotal", "80.00", 1⟩, ⟨"tax", "8.00", 1⟩, ⟨"total", "88.00", 1⟩]) =
      ⟨["totals_match"], [], []⟩
    ∧ "totals_match" ∈ (DocExtract.validateInvoiceTotals (DocExtract.fieldDictPairs
        [⟨"subtotal", "80.00", 1⟩, ⟨"tax", "8.00", 1⟩, ⟨"total", "90.00", 1⟩])).failed := by
  refine ⟨⟨?_, ?_⟩, ?_, ?_⟩
  · intro hlt
    simp only [DocExtract.validateInvoiceTotals, hs, ht, htt]
    rw [if_pos hlt]
  · intro hlt
    simp only [DocExtract.validateInvoiceTotals, hs, ht, htt]
    rw [if_neg hlt]
  · simp only [DocExtract.validateInvoiceTotals,
      show DocExtract.dictGetD (DocExtract.fieldDictPairs
        [⟨"subtotal", "80.00", (1 : ℚ)⟩, ⟨"tax", "8.00", 1⟩, ⟨"total", "88.00", 1⟩])
          "subtotal" "0" = "80.00" from by decide,
      show DocExtract.dictGetD (DocExtract.fieldDictPairs
        [⟨"subtotal", "80.00", (1 : ℚ)⟩, ⟨"tax", "8.00", 1⟩, ⟨"total", "88.00", 1⟩])
          "tax" "0" = "8.00" from by decide,
      show DocExtract.dictGetD (DocExtract.fieldDictPairs
        [⟨"subtotal", "80.00", (1 : ℚ)⟩, ⟨"tax", "8.00", 1⟩, ⟨"total", "88.00", 1⟩])
          "total" "0" = "88.00" from by decide,
      DocExtract.parseAmount_eighty, DocExtract.parseAmount_eight,
      DocExtract.parseAmount_eightyEight]
    rw [if_pos (by norm_num : |(88 : ℚ) - (80 + 8)| < 0.01)]
  · simp only [DocExtract.validateInvoiceTotals,
      show DocExtract.dictGetD (DocExtract.fieldDictPairs
        [⟨"subtotal", "80.00", (1 : ℚ)⟩, ⟨"tax", "8.00", 1⟩, ⟨"total", "90.00", 1⟩])
          "subtotal" "0" = "80.00" from by decide,
      show DocExtract.dictGetD (DocExtract.fieldDictPairs
        [⟨"subtotal", "80.00", (1 : ℚ)⟩, ⟨"tax", "8.00", 1⟩, ⟨"total", "90.00", 1⟩])
          "tax" "0" = "8.00" from by decide,
      show DocExtract.dictGetD (DocExtract.fieldDictPairs
        [⟨"subtotal", "80.00", (1 : ℚ)⟩, ⟨"tax", "8.00", 1⟩, ⟨"total", "90.00", 1⟩])
          "total" "0" = "90.00" from by decide,
      DocExtract.parseAmount_eighty, DocExtract.parseAmount_eight,
      DocExtract.parseAmount_ninety]
    rw [if_neg (by norm_num : ¬ |(90 : ℚ) - (80 + 8)| < 0.01)]
    simp

/-- Witness for C5: the parse hypotheses hold at the concrete 80/8/88
invoice and the cross-check passes there. -/
theorem claim5_witness :
    DocExtract.parseAmount (DocExtract.dictGetD (DocExtract.fieldDictPairs
      [⟨"subtotal", "80.00", 1⟩, ⟨"tax", "8.00", 1⟩, ⟨"total", "88.00", 1⟩])
        "subtotal" "0") = some 80
    ∧ |(88 : ℚ) - (80 + 8)| < 0.01
    ∧ DocExtract.validateInvoiceTotals (DocExtract.fieldDictPairs
        [⟨"subtotal", "80.00", 1⟩, ⟨"tax", "8.00", 1⟩, ⟨"total", "88.00", 1⟩]) =
      ⟨["totals_match"], [], []⟩ := by
  have h1 : DocExtract.parseAmount (DocExtract.dictGetD (DocExtract.fieldDictPairs
      [⟨"subtotal", "80.00", (1 : ℚ)⟩, ⟨"tax", "8.00", 1⟩, ⟨"total", "88.00", 1⟩])
        "subtotal" "0") = some 80 := by
    rw [show DocExtract.dictGetD (DocExtract.fieldDictPairs
        [⟨"subtotal", "80.00", (1 : ℚ)⟩, ⟨"tax", "8.00", 1⟩, ⟨"total", "88.00", 1⟩])
          "subtotal" "0" = "80.00" from by decide]
    exact DocExtract.parseAmount_eighty
  have h2 : DocExtract.parseAmount (DocExtract.dictGetD (DocExtract.fieldDictPairs
      [⟨"subtotal", "80.00", (1 : ℚ)⟩, ⟨"tax", "8.00", 1⟩, ⟨"total", "88.00", 1⟩])
        "tax" "0") = some 8 := by
    rw [show DocExtract.dictGetD (DocExtract.fieldDictPairs
        [⟨"subtotal", "80.00", (1 : ℚ)⟩, ⟨"tax", "8.00", 1⟩, ⟨"total", "88.00", 1⟩])
          "tax" "0" = "8.00" from by decide]
    exact DocExtract.parseAmount_eight
  have h3 : DocExtract.parseAmount (DocExtract.dictGetD (DocExtract.fieldDictPairs
      [⟨"subtotal", "80.00", (1 : ℚ)⟩, ⟨"tax", "8.00", 1⟩, ⟨"total", "88.00", 1⟩])
        "total" "0") = some 88 := by
    rw [show DocExtract.dictGetD (DocExtract.fieldDictPairs
        [⟨"subtotal", "80.00", (1 : ℚ)⟩, ⟨"tax", "8.00", 1⟩, ⟨"total", "88.00", 1⟩])
          "total" "0" = "88.00" from by decide]
    exact DocExtract.parseAmount_eightyEight
  exact ⟨h1, by norm_num,
    (claim5_invoice_totals_tolerance
      [⟨"subtotal", "80.00", 1⟩, ⟨"tax", "8.00", 1⟩, ⟨"total", "88.00", 1⟩]
      80 8 88 h1 h2 h3).1.1 (by norm_num)⟩

/-- C6 counterexample: `"abc"` denotes no numeric amount, yet with
subtotal `"abc"` the invoice cross-check does not add
`totals_calculation`: stripping non-numeric characters leaves the empty
string, which `_parse_amount` maps to `0.0`, so the totals comparison
runs (and passes against the defaulted tax and total). -/
theorem claim6_counterexample :
    DocExtract.validateInvoiceTotals
        (DocExtract.fieldDictPairs [⟨"subtotal", "abc", 1⟩]) =
      ⟨["totals_match"], [], []⟩
    ∧ "totals_calculation" ∉ (DocExtract.validateInvoiceTotals
        (DocExtract.fieldDictPairs [⟨"subtotal", "abc", 1⟩])).failed := by
  have h : DocExtract.validateInvoiceTotals
      (DocExtract.fieldDictPairs [⟨"subtotal", "abc", (1 : ℚ)⟩]) =
      ⟨["totals_match"], [], []⟩ := by
    simp only [DocExtract.validateInvoiceTotals,
      show DocExtract.dictGetD (DocExtract.fieldDictPairs
        [⟨"subtotal", "abc", (1 : ℚ)⟩]) "subtotal" "0" = "abc" from by decide,
      show DocExtract.dictGetD (DocExtract.fieldDictPairs
        [⟨"subtotal", "abc", (1 : ℚ)⟩]) "tax" "0" = "0" from by decide,
      show DocExtract.dictGetD (DocExtract.fieldDictPairs
        [⟨"subtotal", "abc", (1 : ℚ)⟩]) "total" "0" = "0" from by decide,
      DocExtract.parseAmount_abc, DocExtract.parseAmount_zero]
    rw [if_pos (by norm_num : |(0 : ℚ) - (0 + 0)| < 0.01)]
  refine ⟨h, ?_⟩
  rw [h]
  simp

/-- C6 amended: the invoice cross-check adds the dedicated failed rule
`totals_calculation` (and no exception escapes, the embedding being
total) exactly on the `ValueError` path: when one of the three strings
has a non-empty cleaned form that is not a float literal.  Strings whose
cleaned form is empty — including fully non-numeric strings such as
`"abc"` — parse as `0.0` instead. -/
theorem claim6_parse_failure_amended (fields : List DocExtract.ExtractedField)
    (h : DocExtract.parseAmount
        (DocExtract.dictGetD (DocExtract.fieldDictPairs fields) "subtotal" "0") = none
      ∨ DocExtract.parseAmount
        (DocExtract.dictGetD (DocExtract.fieldDictPairs fields) "tax" "0") = none
      ∨ DocExtract.parseAmount
        (DocExtract.dictGetD (DocExtract.fieldDictPairs fields) "total" "0") = none) :
    DocExtract.validateInvoiceTotals (DocExtract.fieldDictPairs fields) =
      ⟨[], ["totals_calculation"], ["Could not parse amounts for total validation"]⟩ := by
  unfold DocExtract.validateInvoiceTotals
  cases e1 : DocExtract.parseAmount
      (DocExtract.dictGetD (DocExtract.fieldDictPairs fields) "subtotal" "0") with
  | none => rfl
  | some a =>
    cases e2 : DocExtract.parseAmount
        (DocExtract.dictGetD (DocExtract.fieldDictPairs fields) "tax" "0") with
    | none => rfl
    | some b =>
      cases e3 : DocExtract.parseAmount
          (DocExtract.dictGetD (DocExtract.fieldDictPairs fields) "total" "0") with
      | none => rfl
      | some c =>
        exfalso
        rw [e1, e2, e3] at h
        simp at h

/-- Witness for C6's amended claim: a total of `"1.2.3"` cleans to a
non-float literal, so parsing fails and `totals_calculation` is
recorded. -/
theorem claim6_witness :
    DocExtract.parseAmount (DocExtract.dictGetD
      (DocExtract.fieldDictPairs [⟨"total", "1.2.3", 1⟩]) "total" "0") = none
    ∧ DocExtract.validateInvoiceTotals
        (DocExtract.fieldDictPairs [⟨"total", "1.2.3", 1⟩]) =
      ⟨[], ["totals_calculation"], ["Could not parse amounts for total validation"]⟩ := by
  have h : DocExtract.parseAmount (DocExtract.dictGetD
      (DocExtract.fieldDictPairs [⟨"total", "1.2.3", (1 : ℚ)⟩]) "total" "0") = none := by
    rw [show DocExtract.dictGetD
      (DocExtract.fieldDictPairs [⟨"total", "1.2.3", (1 : ℚ)⟩]) "total" "0" = "1.2.3"
      from by decide]
    exact DocExtract.parseAmount_twoDots
  exact ⟨h, claim6_parse_failure_amended [⟨"total", "1.2.3", 1⟩] (Or.inr (Or.inr h))⟩

namespace DocExtract

/-! ## Evaluation lemmas for concrete fields -/

theorem validateField_ax :
    validateField ⟨"a", "x", 0.9⟩ = ⟨true, ["confidence_threshold"], [], "Valid"⟩ := by
  have hc : (0.9 : ℚ) ≥ minFieldConfidence := by norm_num [minFieldConfidence]
  simp +decide [validateField, fieldRuleResults, hc]

theorem validateField_by :
    validateField ⟨"b", "y", 0.9⟩ = ⟨true, ["confidence_threshold"], [], "Valid"⟩ := by
  have hc : (0.9 : ℚ) ≥ minFieldConfidence := by norm_num [minFieldConfidence]
  simp +decide [validateField, fieldRuleResults, hc]

theorem validateField_total_abc :
    validateField ⟨"total", "abc", 0.9⟩ =
      ⟨false, ["confidence_threshold"], ["amount_format"], "Invalid amount format"⟩ := by
  have hc : (0.9 : ℚ) ≥ minFieldConfidence := by norm_num [minFieldConfidence]
  simp +decide [validateField, fieldRuleResults, hc]

theorem claim3Fields_cross :
    performCrossValidation [⟨"a", "x", 0.9⟩, ⟨"b", "y", 0.9⟩, ⟨"total", "abc", 0.9⟩]
      "invoice" = ⟨["totals_match"], [], ["No date fields found"]⟩ := by
  have hinv : validateInvoiceTotals (fieldDictPairs
      [⟨"a", "x", (0.9 : ℚ)⟩, ⟨"b", "y", 0.9⟩, ⟨"total", "abc", 0.9⟩]) =
      ⟨["totals_match"], [], []⟩ := by
    simp only [validateInvoiceTotals,
      show dictGetD (fieldDictPairs
        [⟨"a", "x", (0.9 : ℚ)⟩, ⟨"b", "y", 0.9⟩, ⟨"total", "abc", 0.9⟩])
          "subtotal" "0" = "0" from by decide,
      show dictGetD (fieldDictPairs
        [⟨"a", "x", (0.9 : ℚ)⟩, ⟨"b", "y", 0.9⟩, ⟨"total", "abc", 0.9⟩])
          "tax" "0" = "0" from by decide,
      show dictGetD (fieldDictPairs
        [⟨"a", "x", (0.9 : ℚ)⟩, ⟨"b", "y", 0.9⟩, ⟨"total", "abc", 0.9⟩])
          "total" "0" = "abc" from by decide,
      parseAmount_abc, parseAmount_zero]
    rw [if_pos (by norm_num : |(0 : ℚ) - (0 + 0)| < 0.01)]
  simp +decide [performCrossValidation, validateDateConsistency, hinv]

theorem claim3Fields_raw :
    rawValidationRules [⟨"a", "x", 0.9⟩, ⟨"b", "y", 0.9⟩, ⟨"total", "abc", 0.9⟩]
      "invoice" =
      (["confidence_threshold", "confidence_threshold", "totals_match"],
       ["amount_format"]) := by
  simp [rawValidationRules, validateField_ax, validateField_by, validateField_total_abc,
    claim3Fields_cross]

end DocExtract

/-- C3 counterexample: with fields `a`, `b` (both passing only the
confidence check) and `total = "abc"` (failing the amount-format check
but passing the confidence check) on an invoice, the raw rule lists are
three passes (`confidence_threshold` twice, `totals_match` once) against
one failure, so the stored score is `3/4`; the stored, deduplicated rule
lists have two passes against one failure, so the claimed identity would
give `2/3`. -/
theorem claim3_counterexample :
    (DocExtract.validateExtraction
        [⟨"a", "x", 0.9⟩, ⟨"b", "y", 0.9⟩, ⟨"total", "abc", 0.9⟩]
        "invoice").crossValidationScore ≠
      ((DocExtract.validateExtraction
          [⟨"a", "x", 0.9⟩, ⟨"b", "y", 0.9⟩, ⟨"total", "abc", 0.9⟩]
          "invoice").passedRules.length : ℚ) /
        (((DocExtract.validateExtraction
            [⟨"a", "x", 0.9⟩, ⟨"b", "y", 0.9⟩, ⟨"total", "abc", 0.9⟩]
            "invoice").passedRules.length : ℚ)
          + ((DocExtract.validateExtraction
              [⟨"a", "x", 0.9⟩, ⟨"b", "y", 0.9⟩, ⟨"total", "abc", 0.9⟩]
              "invoice").failedRules.length : ℚ)) := by
  have hscore : (DocExtract.validateExtraction
      [⟨"a", "x", 0.9⟩, ⟨"b", "y", 0.9⟩, ⟨"total", "abc", 0.9⟩]
      "invoice").crossValidationScore = 3 / 4 := by
    simp only [DocExtract.validateExtraction, DocExtract.claim3Fields_raw]
    norm_num
  have hpassed : (DocExtract.validateExtraction
      [⟨"a", "x", 0.9⟩, ⟨"b", "y", 0.9⟩, ⟨"total", "abc", 0.9⟩]
      "invoice").passedRules = ["confidence_threshold", "totals_match"] := by
    simp only [DocExtract.validateExtraction, DocExtract.claim3Fields_raw]
    decide
  have hfailed : (DocExtract.validateExtraction
      [⟨"a", "x", 0.9⟩, ⟨"b", "y", 0.9⟩, ⟨"total", "abc", 0.9⟩]
      "invoice").failedRules = ["amount_format"] := by
    simp only [DocExtract.validateExtraction, DocExtract.claim3Fields_raw]
    decide
  rw [hscore, hpassed, hfailed]
  norm_num

/-- C3 amended: the cross-validation score is the pass ratio of the raw
(pre-deduplication) accumulated rule lists, `0.0` when no rule was
evaluated; the stored rule lists are exactly those lists deduplicated, so
the claimed identity over the stored lists holds whenever no rule name
was recorded more than once — and only then can it be relied on.  The
zero-when-both-stored-lists-are-empty clause is preserved. -/
theorem claim3_score_raw_lists_amended
    (fields : List DocExtract.ExtractedField) (docType : String) :
    (DocExtract.validateExtraction fields docType).crossValidationScore =
      (if 0 < (DocExtract.rawValidationRules fields docType).1.length
            + (DocExtract.rawValidationRules fields docType).2.length
       then ((DocExtract.rawValidationRules fields docType).1.length : ℚ)
         / ((((DocExtract.rawValidationRules fields docType).1.length
              + (DocExtract.rawValidationRules fields docType).2.length : ℕ)) : ℚ)
       else 0)
    ∧ (DocExtract.validateExtraction fields docType).passedRules =
        (DocExtract.rawValidationRules fields docType).1.dedup
    ∧ (DocExtract.validateExtraction fields docType).failedRules =
        (DocExtract.rawValidationRules fields docType).2.dedup
    ∧ ((DocExtract.rawValidationRules fields docType).1.Nodup →
        (DocExtract.rawValidationRules fields docType).2.Nodup →
        (DocExtract.validateExtraction fields docType).crossValidationScore =
          (if 0 < (DocExtract.validateExtraction fields docType).passedRules.length
                + (DocExtract.validateExtraction fields docType).failedRules.length
           then ((DocExtract.validateExtraction fields docType).passedRules.length : ℚ)
             / ((((DocExtract.validateExtraction fields docType).passedRules.length
                  + (DocExtract.validateExtraction fields docType).failedRules.length :
                    ℕ)) : ℚ)
           else 0))
    ∧ ((DocExtract.validateExtraction fields docType).passedRules = [] →
        (DocExtract.validateExtraction fields docType).failedRules = [] →
        (DocExtract.validateExtraction fields docType).crossValidationScore = 0) := by
  refine ⟨rfl, rfl, rfl, ?_, ?_⟩
  · intro h1 h2
    have e1 : (DocExtract.rawValidationRules fields docType).1.dedup =
        (DocExtract.rawValidationRules fields docType).1 := List.dedup_eq_self.mpr h1
    have e2 : (DocExtract.rawValidationRules fields docType).2.dedup =
        (DocExtract.rawValidationRules fields docType).2 := List.dedup_eq_self.mpr h2
    show (if 0 < (DocExtract.rawValidationRules fields docType).1.length
            + (DocExtract.rawValidationRules fields docType).2.length
          then ((DocExtract.rawValidationRules fields docType).1.length : ℚ)
            / ((((DocExtract.rawValidationRules fields docType).1.length
                + (DocExtract.rawValidationRules fields docType).2.length : ℕ)) : ℚ)
          else 0) =
      (if 0 < (DocExtract.rawValidationRules fields docType).1.dedup.length
            + (DocExtract.rawValidationRules fields docType).2.dedup.length
       then ((DocExtract.rawValidationRules fields docType).1.dedup.length : ℚ)
         / ((((DocExtract.rawValidationRules fields docType).1.dedup.length
              + (DocExtract.rawValidationRules fields docType).2.dedup.length : ℕ)) : ℚ)
       else 0)
    rw [e1, e2]
  · intro h1 h2
    have e1 : (DocExtract.rawValidationRules fields docType).1 = [] :=
      (List.dedup_eq_nil _).mp h1
    have e2 : (DocExtract.rawValidationRules fields docType).2 = [] :=
      (List.dedup_eq_nil _).mp h2
    show (if 0 < (DocExtract.rawValidationRules fields docType).1.length
            + (DocExtract.rawValidationRules fields docType).2.length
          then ((DocExtract.rawValidationRules fields docType).1.length : ℚ)
            / ((((DocExtract.rawValidationRules fields docType).1.length
                + (DocExtract.rawValidationRules fields docType).2.length : ℕ)) : ℚ)
          else 0) = 0
    rw [e1, e2]
    simp

/-- Witness for C3's amended claim: with no fields and an unrecognized
document type no rule fires, both stored lists are empty and the score is
`0`. -/
theorem claim3_witness :
    (DocExtract.validateExtraction [] "other").passedRules = []
    ∧ (DocExtract.validateExtraction [] "other").failedRules = []
    ∧ (DocExtract.validateExtraction [] "other").crossValidationScore = 0 :=
  ⟨rfl, rfl, (claim3_score_raw_lists_amended [] "other").2.2.2.2 rfl rfl⟩

/-- C10: every rule name in the aggregated passed list comes either from
cross-validation or from a field all of whose sub-rules passed; a field
with at least one failed sub-rule therefore contributes none of its
passed sub-rules (such as a passed `confidence_threshold`) to
`QualityAssurance.passed_rules`. -/
theorem claim10_partial_field_no_passed_rules
    (fields : List DocExtract.ExtractedField) (docType : String) (r : String)
    (hr : r ∈ (DocExtract.validateExtraction fields docType).passedRules) :
    r ∈ (DocExtract.performCrossValidation fields docType).passed
    ∨ ∃ f, f ∈ fields ∧ (DocExtract.validateField f).rulesFailed = []
        ∧ r ∈ (DocExtract.validateField f).rulesPassed := by
  have hr' : r ∈ (DocExtract.rawValidationRules fields docType).1.dedup := hr
  rw [List.mem_dedup] at hr'
  have hsplit : (DocExtract.rawValidationRules fields docType).1 =
      ((fields.map DocExtract.validateField).filter (fun v => v.passed)).flatMap
        (fun v => v.rulesPassed)
      ++ (DocExtract.performCrossValidation fields docType).passed := rfl
  rw [hsplit, List.mem_append] at hr'
  rcases hr' with hf | hc
  · right
    rw [List.mem_flatMap] at hf
    obtain ⟨v, hv, hrv⟩ := hf
    rw [List.mem_filter] at hv
    obtain ⟨hvmem, hvp⟩ := hv
    rw [List.mem_map] at hvmem
    obtain ⟨f, hfmem, rfl⟩ := hvmem
    exact ⟨f, hfmem,
      DocExtract.validateField_passed_rulesFailed f (by simpa using hvp), hrv⟩
  · left
    exact hc

/-- Witness for C10: `confidence_threshold` is in the stored passed rules
of a run with one fully passing field, and the disjunction holds there. -/
theorem claim10_witness :
    "confidence_threshold" ∈
      (DocExtract.validateExtraction [⟨"a", "x", 0.9⟩] "other").passedRules
    ∧ ("confidence_threshold" ∈
        (DocExtract.performCrossValidation [⟨"a", "x", 0.9⟩] "other").passed
      ∨ ∃ f, f ∈ ([⟨"a", "x", 0.9⟩] : List DocExtract.ExtractedField)
          ∧ (DocExtract.validateField f).rulesFailed = []
          ∧ "confidence_threshold" ∈ (DocExtract.validateField f).rulesPassed) := by
  have hcross : DocExtract.performCrossValidation [⟨"a", "x", 0.9⟩] "other" =
      ⟨[], [], ["No date fields found"]⟩ := by
    simp +decide [DocExtract.performCrossValidation, DocExtract.validateDateConsistency,
      DocExtract.fieldDictPairs]
  have hraw : DocExtract.rawValidationRules [⟨"a", "x", 0.9⟩] "other" =
      (["confidence_threshold"], []) := by
    simp [DocExtract.rawValidationRules, DocExtract.validateField_ax, hcross]
  have hmem : "confidence_threshold" ∈
      (DocExtract.validateExtraction [⟨"a", "x", 0.9⟩] "other").passedRules := by
    show "confidence_threshold" ∈
      (DocExtract.rawValidationRules [⟨"a", "x", 0.9⟩] "other").1.dedup
    rw [hraw]
    simp
  exact ⟨hmem, claim10_partial_field_no_passed_rules [⟨"a", "x", 0.9⟩] "other"
    "confidence_threshold" hmem⟩


/-- C9: amount parsing is invariant under pre-stripping: for every string
`s`, `_parse_amount s` agrees with `_parse_amount` applied to `s` with every
character other than digits, `.` and `-` removed; in particular parsing
`"$1,234.56"` yields the same value as parsing `"1234.56"`. -/
theorem claim9_parse_amount_strip_invariant :
    (∀ s : String, DocExtract.parseAmount s =
      DocExtract.parseAmount (DocExtract.stripAmountChars s))
    ∧ DocExtract.parseAmount "$1,234.56" = DocExtract.parseAmount "1234.56" := by
  have hgen : ∀ s : String, DocExtract.parseAmount s =
      DocExtract.parseAmount (DocExtract.stripAmountChars s) := by
    intro s
    by_cases hs : s = ""
    · subst hs
      rfl
    · by_cases hc : DocExtract.stripAmountChars s = ""
      · simp [DocExtract.parseAmount, hs, hc]
      · simp [DocExtract.parseAmount, hs, hc, DocExtract.stripAmountChars_idem]
  refine ⟨hgen, ?_⟩
  have hs : DocExtract.stripAmountChars "$1,234.56" = "1234.56" := by decide
  rw [hgen "$1,234.56", hs]
